import Mathlib

/-!
Shallow embedding of the reachability-detection engine of
cniu6/ipcheck-golang (src/main.go).

The engine is concurrent Go code.  We embed it as pure functions over an
oracle (`Env`) that fixes the outcome of every externally-visible effect:
whether each `select` on a semaphore chose the send or the cancellation,
the raw-socket open / marshal / write outcomes and the incoming packet
stream of each ICMP probe, each TCP dial outcome, each DNS lookup result,
and each system-ping exit status.  A boolean oracle outcome means "this
effect succeeded before its governing deadline", so wall-clock timeouts
are folded into the oracles.  Goroutines that the code joins with a
WaitGroup before reading their results are sequentialised; the racing
`select` on a one-shot channel is modelled by the disjunction of the
attempts' outcomes.  Every model function also emits a trace of events
(gate acquisitions and releases, probes, lookups) so that gating,
ordering and frame claims are statable.
-/

/-- Address family: `v4` models a Go `net.IP` with `ip.To4() != nil`,
`v6` one with `ip.To4() == nil`. -/
inductive Fam
  | v4
  | v6
deriving DecidableEq

/-- An abstract network address: its family tag plus an identity. -/
structure IPAddr where
  fam : Fam
  id : Nat
deriving DecidableEq

/-- The other address family. -/
def otherFam : Fam → Fam
  | Fam.v4 => Fam.v6
  | Fam.v6 => Fam.v4

/-- The three process-wide semaphores of src/main.go: `semDNS`, `semICMP`,
`semTCP`. -/
inductive GateId
  | dns
  | icmp
  | tcp
deriving DecidableEq

/-- One buffered-channel semaphore: `make(chan struct\x7b\x7d, cap)` with
`cur` elements currently in the channel. -/
structure GateSt where
  cap : Nat
  cur : Nat
deriving DecidableEq

/-- The three gate states together. -/
structure Gates where
  dns : GateSt
  icmp : GateSt
  tcp : GateSt
deriving DecidableEq

/-- Project one gate out of `Gates`. -/
def gateOf (g : GateId) (gs : Gates) : GateSt :=
  match g with
  | GateId.dns => gs.dns
  | GateId.icmp => gs.icmp
  | GateId.tcp => gs.tcp

/-- `acquire(ctx, sem)` of src/main.go:64-71: a `select` between sending on
the buffered channel and `ctx.Done()`.  `want = true` models the select
choosing the send arm (a slot became available before the deadline); a send
can only proceed while the channel holds fewer than `cap` elements. -/
def tryAcquire (want : Bool) (g : GateSt) : Bool × GateSt :=
  if want ∧ g.cur < g.cap then (true, { g with cur := g.cur + 1 })
  else (false, g)

/-- `release(sem)` of src/main.go:73: receive one element back. -/
def releaseG (g : GateSt) : GateSt := { g with cur := g.cur - 1 }

/-- ICMP message types as parsed by `icmp.ParseMessage`: the dynamic Go type
of the parsed `Type` field is `ipv4.ICMPType` for protocol 1 and
`ipv6.ICMPType` for protocol 58, so values of different families are never
equal. -/
inductive ICMPType
  | v4Type (code : Nat)
  | v6Type (code : Nat)
deriving DecidableEq

/-- `ipv4.ICMPTypeEchoReply` (type code 0). -/
def echoReplyV4 : ICMPType := ICMPType.v4Type 0

/-- `ipv6.ICMPTypeEchoReply` (type code 129). -/
def echoReplyV6 : ICMPType := ICMPType.v6Type 129

/-- A raw packet delivered to the ICMP socket: its leading type octet and
whether `icmp.ParseMessage` rejects it (too short / malformed body). -/
structure Packet where
  b0 : Nat
  parseErr : Bool
deriving DecidableEq

/-- The error classes a failed `c.ReadFrom` can produce; doICMP inspects
`net.Error.Timeout()` and `os.ErrDeadlineExceeded` separately. -/
inductive ReadErrKind
  | timeoutErr
  | deadlineErr
  | otherErr
deriving DecidableEq

/-- One iteration of doICMP's read loop as seen by the oracle: the
non-blocking `ctx.Done()` check fired, or the read returned an error, or a
packet was received. -/
inductive ReadStep
  | ctxDone
  | readErr (k : ReadErrKind)
  | recv (p : Packet)
deriving DecidableEq

/-- `getProto` of src/main.go:368-373. -/
def getProto (ip : IPAddr) : Nat :=
  if ip.fam = Fam.v4 then 1 else 58

/-- `icmp.ParseMessage(proto, b)`: fails on malformed packets, otherwise
yields the type octet tagged with the protocol's type family. -/
def parseMessage (proto : Nat) (p : Packet) : Option ICMPType :=
  if p.parseErr then none
  else if proto = 1 then some (ICMPType.v4Type p.b0)
  else some (ICMPType.v6Type p.b0)

/-- The read loop of doICMP (src/main.go:345-365): context cancellation and
every read error return false; a parsed reply whose type equals
`ipv4.ICMPTypeEchoReply` or `ipv6.ICMPTypeEchoReply` returns true; anything
else is discarded and the loop continues.  An exhausted stream models the
socket deadline expiring (a timeout read error), hence false. -/
def icmpReadLoop (proto : Nat) : List ReadStep → Bool
  | [] => false
  | ReadStep.ctxDone :: _ => false
  | ReadStep.readErr _ :: _ => false
  | ReadStep.recv p :: rest =>
    match parseMessage proto p with
    | some t =>
      if t = echoReplyV4 ∨ t = echoReplyV6 then true else icmpReadLoop proto rest
    | none => icmpReadLoop proto rest

/-- Oracle for one doICMP call: whether `icmp.ListenPacket` succeeded,
whether `msg.Marshal` succeeded, whether `c.WriteTo` succeeded, and the
stream of read-loop iterations. -/
structure ICMPEnv where
  listenOk : Bool
  marshalOk : Bool
  writeOk : Bool
  reads : List ReadStep

/-- `doICMP` of src/main.go:311-366: open the family-appropriate raw
socket, marshal and send one echo request, then run the read loop; each
failure returns false. -/
def doICMP (e : ICMPEnv) (ip : IPAddr) : Bool :=
  if e.listenOk = false then false
  else if e.marshalOk = false then false
  else if e.writeOk = false then false
  else icmpReadLoop (getProto ip) e.reads

/-- The subtypes of TCP connect error mentioned by the spec; `DialContext`
returning any of them is handled identically by the code. -/
inductive DialErr
  | refused
  | timedOut
  | unreachable
  | routeFail
deriving DecidableEq

/-- Full request oracle. `icmpSel ip` / `tcpSel ip port` / `dnsSel f`: the
acquire `select` chose the semaphore send for that attempt.  `icmpO ip`:
that attempt's doICMP oracle.  `dial net ip port`: outcome of
`d.DialContext` (none = connection established within the 1200 ms dialer
timeout).  `resolve f`: the `LookupIP` result for `"ip4"`/`"ip6"` (empty on
any resolution failure).  `ping f`: exit status zero of the system ping. -/
structure Env where
  icmpSel : IPAddr → Bool
  icmpO : IPAddr → ICMPEnv
  tcpSel : IPAddr → String → Bool
  dial : String → IPAddr → String → Option DialErr
  dnsSel : Fam → Bool
  resolve : Fam → List IPAddr
  ping : Fam → Bool

/-- Trace events: gate acquisitions (with outcome) and releases, DNS
lookups, ICMP probes (with outcome), TCP dial attempts (with outcome),
the immediate close of an established TCP connection, and system pings. -/
inductive Ev
  | acq (g : GateId) (ok : Bool)
  | rel (g : GateId)
  | dnsLook (f : Fam)
  | icmpProbe (ip : IPAddr) (ok : Bool)
  | tcpProbe (ip : IPAddr) (port : String) (ok : Bool)
  | tcpClose (ip : IPAddr) (port : String)
  | sysPing (f : Fam) (ok : Bool)
deriving DecidableEq

/-- The Detection Result (`pingResult` of src/main.go:34-37). -/
structure PingResult where
  IPv4 : String
  IPv6 : String
deriving DecidableEq

/-- Select the field of the result matching a family. -/
def fieldOf (r : PingResult) (f : Fam) : String :=
  match f with
  | Fam.v4 => r.IPv4
  | Fam.v6 => r.IPv6

/-- A request input: a string that `net.ParseIP` accepts (carried as its
parsed address) or one it rejects (a domain name). -/
inductive Input
  | lit (ip : IPAddr)
  | domain (host : String)

/-- `net.ParseIP` on a validated input. -/
def parseIP : Input → Option IPAddr
  | Input.lit ip => some ip
  | Input.domain _ => none

/-- The overall request timeout of detectAndPing, seconds (src/main.go:148). -/
def overallTimeoutSec : Nat := 5

/-- The stage-local timeout of raceEcho, milliseconds (src/main.go:246). -/
def icmpStageBudgetMs : Nat := 2200

/-- The stage-local timeout of tcpConnectRace, milliseconds (src/main.go:273). -/
def tcpStageBudgetMs : Nat := 2200

/-- The per-dial timeout of the `net.Dialer` in tcpConnectRace, milliseconds
(src/main.go:292). -/
def tcpDialTimeoutMs : Nat := 1200

/-- The destination ports tried by the TCP stage (src/main.go:214). -/
def stagePorts : List String := ["443", "80"]

/-- `dialNet` selection of tcpConnectRace (src/main.go:278-281). -/
def dialNetOf (f : Fam) : String :=
  if f = Fam.v6 then "tcp6" else "tcp4"

/-- `pingWithFamily` of src/main.go:376-402: run the OS ping once for this
host and family (OS-specific argument handling folded into the oracle);
result is true exactly when the command exits zero. -/
def pingWithFamily (env : Env) (f : Fam) : Bool × List Ev :=
  (env.ping f, [Ev.sysPing f (env.ping f)])

/-- One goroutine body of raceEcho (src/main.go:253-261): acquire the ICMP
gate (failure before the deadline means the attempt reports nothing, i.e.
failure), probe, release. -/
def icmpAttempt (env : Env) (ip : IPAddr) (gs : Gates) : Bool × Gates × List Ev :=
  let a := tryAcquire (env.icmpSel ip) gs.icmp
  if a.1 then
    let r := doICMP (env.icmpO ip) ip
    (r, { gs with icmp := releaseG a.2 },
      [Ev.acq GateId.icmp true, Ev.icmpProbe ip r, Ev.rel GateId.icmp])
  else (false, { gs with icmp := a.2 }, [Ev.acq GateId.icmp false])

/-- `raceEcho` of src/main.go:245-269: one gated ICMP attempt per candidate
address; the stage result is true iff some attempt succeeded (first success
wins; abandoned attempts are folded into their oracles). -/
def raceEcho (env : Env) : List IPAddr → Gates → Bool × Gates × List Ev
  | [], gs => (false, gs, [])
  | ip :: rest, gs =>
    let x := icmpAttempt env ip gs
    let y := raceEcho env rest x.2.1
    (x.1 || y.1, y.2.1, x.2.2 ++ y.2.2)

/-- One goroutine body of tcpConnectRace (src/main.go:287-298): acquire the
TCP gate, dial with the 1200 ms dialer timeout, and on success immediately
close the connection without exchanging data. -/
def tcpAttempt (env : Env) (f : Fam) (ip : IPAddr) (port : String) (gs : Gates) :
    Bool × Gates × List Ev :=
  let a := tryAcquire (env.tcpSel ip port) gs.tcp
  if a.1 then
    match env.dial (dialNetOf f) ip port with
    | none =>
      (true, { gs with tcp := releaseG a.2 },
        [Ev.acq GateId.tcp true, Ev.tcpProbe ip port true, Ev.tcpClose ip port,
         Ev.rel GateId.tcp])
    | some _ =>
      (false, { gs with tcp := releaseG a.2 },
        [Ev.acq GateId.tcp true, Ev.tcpProbe ip port false, Ev.rel GateId.tcp])
  else (false, { gs with tcp := a.2 }, [Ev.acq GateId.tcp false])

/-- The inner port loop of tcpConnectRace (src/main.go:285-299). -/
def tcpPortLoop (env : Env) (f : Fam) (ip : IPAddr) :
    List String → Gates → Bool × Gates × List Ev
  | [], gs => (false, gs, [])
  | p :: rest, gs =>
    let x := tcpAttempt env f ip p gs
    let y := tcpPortLoop env f ip rest x.2.1
    (x.1 || y.1, y.2.1, x.2.2 ++ y.2.2)

/-- `tcpConnectRace` of src/main.go:272-308: one gated dial attempt per
(address, port) pair; true iff some attempt connected. -/
def tcpConnectRace (env : Env) (f : Fam) :
    List IPAddr → List String → Gates → Bool × Gates × List Ev
  | [], _, gs => (false, gs, [])
  | ip :: rest, ports, gs =>
    let x := tcpPortLoop env f ip ports gs
    let y := tcpConnectRace env f rest ports x.2.1
    (x.1 || y.1, y.2.1, x.2.2 ++ y.2.2)

/-- The per-family goroutine body of the domain path (src/main.go:220,229):
`raceEcho(...) || tcpConnectRace(...) || pingWithFamily(...)`, Go `||`
being short-circuit, so each later stage runs only if the earlier one
returned false. -/
def familyRace (env : Env) (f : Fam) (ips : List IPAddr) (gs : Gates) :
    Bool × Gates × List Ev :=
  let s1 := raceEcho env ips gs
  if s1.1 then (true, s1.2.1, s1.2.2)
  else
    let s2 := tcpConnectRace env f ips stagePorts s1.2.1
    if s2.1 then (true, s2.2.1, s1.2.2 ++ s2.2.2)
    else
      let s3 := pingWithFamily env f
      (s3.1, s2.2.1, s1.2.2 ++ s2.2.2 ++ s3.2)

/-- One resolver goroutine of the domain path (src/main.go:192-211):
acquire the DNS gate (failure leaves the list empty), look up this
family's records, keep the list only when non-empty. -/
def dnsLookupFam (env : Env) (f : Fam) (gs : Gates) :
    List IPAddr × Gates × List Ev :=
  let a := tryAcquire (env.dnsSel f) gs.dns
  if a.1 then
    let ips := env.resolve f
    (if ips.length > 0 then ips else [],
     { gs with dns := releaseG a.2 },
     [Ev.acq GateId.dns true, Ev.dnsLook f, Ev.rel GateId.dns])
  else ([], { gs with dns := a.2 }, [Ev.acq GateId.dns false])

/-- The literal-IP arm of detectAndPing (src/main.go:160-177):
`doICMP(ctx, parsed) || pingWithFamily(ctx, input, fam)` — a direct,
ungated ICMP probe, then the system ping only if it failed. -/
def literalProbe (env : Env) (ip : IPAddr) (f : Fam) : Bool × List Ev :=
  let r := doICMP (env.icmpO ip) ip
  if r then (true, [Ev.icmpProbe ip true])
  else
    let p := pingWithFamily env f
    (p.1, Ev.icmpProbe ip false :: p.2)

/-- `detectAndPing` of src/main.go:147-242.  Literal inputs run the single
parsed address through the literal arm of the matching family and leave the
other field at "no".  Domain inputs resolve both families through the DNS
gate, then run `familyRace` for each family that resolved to a non-empty
list.  The result fields are "ok" exactly when the family's flag was set. -/
def detectAndPing (env : Env) (inp : Input) (gs : Gates) :
    PingResult × Gates × List Ev :=
  match parseIP inp with
  | some ip =>
    if ip.fam = Fam.v4 then
      let x := literalProbe env ip Fam.v4
      ({ IPv4 := if x.1 then "ok" else "no", IPv6 := "no" }, gs, x.2)
    else
      let x := literalProbe env ip Fam.v6
      ({ IPv4 := "no", IPv6 := if x.1 then "ok" else "no" }, gs, x.2)
  | none =>
    let d4 := dnsLookupFam env Fam.v4 gs
    let d6 := dnsLookupFam env Fam.v6 d4.2.1
    let r4 :=
      if d4.1.length > 0 then familyRace env Fam.v4 d4.1 d6.2.1
      else (false, d6.2.1, [])
    let r6 :=
      if d6.1.length > 0 then familyRace env Fam.v6 d6.1 r4.2.1
      else (false, r4.2.1, [])
    ({ IPv4 := if r4.1 then "ok" else "no", IPv6 := if r6.1 then "ok" else "no" },
     r6.2.1, d4.2.2 ++ d6.2.2 ++ r4.2.2 ++ r6.2.2)

/-! Configuration: `getEnvInt` and the semaphore capacities of `init`. -/

/-- Whitespace per Go's `unicode.IsSpace` restricted to Latin-1 code
points: space, tab, newline, vertical tab, form feed, carriage return,
NEL (U+0085) and NBSP (U+00A0); higher Unicode whitespace is not
modelled. -/
def isSpaceChar (c : Char) : Bool :=
  (c.toNat == 32) || (c.toNat == 9) || (c.toNat == 10) || (c.toNat == 11) ||
  (c.toNat == 12) || (c.toNat == 13) || (c.toNat == 133) || (c.toNat == 160)

/-- `strings.TrimSpace`: drop leading and trailing whitespace. -/
def trimSpace (s : String) : String :=
  String.mk (((s.data.dropWhile isSpaceChar).reverse.dropWhile isSpaceChar).reverse)

/-- Numeric value of a decimal digit character. -/
def digitVal (c : Char) : Option Nat :=
  if '0' ≤ c ∧ c ≤ '9' then some (c.toNat - '0'.toNat) else none

/-- Accumulate decimal digits; fails on any non-digit. -/
def digitsToNatCore : List Char → Nat → Option Nat
  | [], acc => some acc
  | c :: r, acc =>
    match digitVal c with
    | some d => digitsToNatCore r (acc * 10 + d)
    | none => none

/-- A non-empty all-digit string's value. -/
def digitsToNat : List Char → Option Nat
  | [] => none
  | l => digitsToNatCore l 0

/-- Largest Go `int` on a 64-bit platform. -/
def int64Max : Int := 9223372036854775807

/-- Smallest Go `int` on a 64-bit platform. -/
def int64Min : Int := -9223372036854775808

/-- `strconv.Atoi`: optional sign, at least one digit, nothing else, value
within the platform `int` range (64-bit assumed); any violation is an
error. -/
def atoi (s : String) : Option Int :=
  match s.data with
  | [] => none
  | c :: rest =>
    let sd : Bool × List Char :=
      if c = '-' then (true, rest)
      else if c = '+' then (false, rest)
      else (false, c :: rest)
    match digitsToNat sd.2 with
    | none => none
    | some n =>
      let v : Int := if sd.1 then -(n : Int) else (n : Int)
      if v < int64Min ∨ int64Max < v then none else some v

/-- `getEnvInt` of src/main.go:52-62; the argument is the raw
`os.Getenv` result, which is `""` when the variable is unset. -/
def getEnvInt (raw : String) (d : Int) : Int :=
  let v := trimSpace raw
  if v = "" then d
  else
    match atoi v with
    | none => d
    | some i => if i ≤ 0 then d else i

/-- The three capacities set by `init` (src/main.go:46-50). -/
structure Caps where
  dnsCap : Int
  icmpCap : Int
  tcpCap : Int
deriving DecidableEq

/-- `init` of src/main.go:46-50: size the three semaphores from the
environment (modelled as the `os.Getenv` function). -/
def initCaps (getenv : String → String) : Caps :=
  { dnsCap := getEnvInt (getenv "MAX_DNS") 4096
    icmpCap := getEnvInt (getenv "MAX_ICMP") 8192
    tcpCap := getEnvInt (getenv "MAX_TCP") 8192 }

/-! Trace observers used by the theorems. -/

/-- A successful probe event of the given family: an ICMP echo success, a
TCP connect success, or a system-ping success for that family. -/
def isFamSuccEv (f : Fam) : Ev → Bool
  | Ev.icmpProbe ip true => decide (ip.fam = f)
  | Ev.tcpProbe ip _ true => decide (ip.fam = f)
  | Ev.sysPing f2 true => decide (f2 = f)
  | _ => false

/-- A successful probe event of any family. -/
def isSuccEv : Ev → Bool
  | Ev.icmpProbe _ true => true
  | Ev.tcpProbe _ _ true => true
  | Ev.sysPing _ true => true
  | _ => false

/-- Did some probe of family `f` succeed in this trace? -/
def anySuccess (f : Fam) (tr : List Ev) : Bool := tr.any (isFamSuccEv f)

/-- ICMP-stage events. -/
def isIcmpEv : Ev → Bool
  | Ev.acq GateId.icmp _ => true
  | Ev.rel GateId.icmp => true
  | Ev.icmpProbe _ _ => true
  | _ => false

/-- TCP-stage events. -/
def isTcpEv : Ev → Bool
  | Ev.acq GateId.tcp _ => true
  | Ev.rel GateId.tcp => true
  | Ev.tcpProbe _ _ _ => true
  | Ev.tcpClose _ _ => true
  | _ => false

/-- System-ping-stage events. -/
def isPingEv : Ev → Bool
  | Ev.sysPing _ _ => true
  | _ => false

/-- DNS events: gate traffic on the DNS gate or a lookup. -/
def isDnsEv : Ev → Bool
  | Ev.acq GateId.dns _ => true
  | Ev.rel GateId.dns => true
  | Ev.dnsLook _ => true
  | _ => false

/-- Successful ICMP probe events. -/
def isIcmpSuccEv : Ev → Bool
  | Ev.icmpProbe _ true => true
  | _ => false

/-- Successful TCP probe events. -/
def isTcpSuccEv : Ev → Bool
  | Ev.tcpProbe _ _ true => true
  | _ => false

/-- Gate accounting: stepping the outstanding count of gate `g` (with
capacity `cap`) over one event.  `none` records a fault: an acquisition
reported successful while the gate was full, or a release with no slot
held. -/
def gateStep (g : GateId) (cap : Nat) (oc : Option Nat) (e : Ev) : Option Nat :=
  match oc with
  | none => none
  | some c =>
    match e with
    | Ev.acq g2 true => if g2 = g then (if c < cap then some (c + 1) else none) else some c
    | Ev.rel g2 => if g2 = g then (match c with | 0 => none | Nat.succ c2 => some c2) else some c
    | _ => some c

/-- Replay a trace's accounting for gate `g` from `c` outstanding slots. -/
def runGate (g : GateId) (cap : Nat) (tr : List Ev) (c : Nat) : Option Nat :=
  tr.foldl (gateStep g cap) (some c)

/-- ICMP-gating discipline: stepping the number of held ICMP slots over one
event; `none` records an ICMP probe performed while no ICMP-gate slot was
held. -/
def gatedStep (oc : Option Nat) (e : Ev) : Option Nat :=
  match oc with
  | none => none
  | some c =>
    match e with
    | Ev.acq GateId.icmp true => some (c + 1)
    | Ev.rel GateId.icmp => some (c - 1)
    | Ev.icmpProbe _ _ => if 0 < c then some c else none
    | _ => some c

/-- Replay the ICMP-gating discipline over a trace. -/
def gatedScan (tr : List Ev) (c : Nat) : Option Nat :=
  tr.foldl gatedStep (some c)

/-! The specification-side read loop of the ICMP prober, for the
refinement claim about reply matching (spec §4.4). -/

/-- Protocol number of a family (spec side, equal to `getProto`). -/
def protoOf : Fam → Nat
  | Fam.v4 => 1
  | Fam.v6 => 58

/-- The echo-reply type belonging to a family's own protocol. -/
def expectedEchoReply : Fam → ICMPType
  | Fam.v4 => echoReplyV4
  | Fam.v6 => echoReplyV6

/-- Read loop as the spec words it: success only on a reply whose parsed
type is the echo reply of the probed address's own protocol; non-matching
packets are discarded; deadline expiry or any read error is failure. -/
def specReadLoop (f : Fam) : List ReadStep → Bool
  | [] => false
  | ReadStep.ctxDone :: _ => false
  | ReadStep.readErr _ :: _ => false
  | ReadStep.recv p :: rest =>
    match parseMessage (protoOf f) p with
    | some t => if t = expectedEchoReply f then true else specReadLoop f rest
    | none => specReadLoop f rest

/-! Concrete inputs for counterexamples and witnesses. -/

/-- A concrete IPv4 address. -/
def ipW : IPAddr := { fam := Fam.v4, id := 0 }

/-- Fresh gates at the default capacities with no slot held. -/
def gs0 : Gates :=
  { dns := { cap := 4096, cur := 0 }
    icmp := { cap := 8192, cur := 0 }
    tcp := { cap := 8192, cur := 0 } }

/-- An environment where every ICMP probe fails (read error), every TCP
dial to port 443 connects, every other dial fails, the system ping fails,
and nothing resolves; all gate selects pick the send arm. -/
def envTcpOnly : Env :=
  { icmpSel := fun _ => true
    icmpO := fun _ =>
      { listenOk := true, marshalOk := true, writeOk := true
        reads := [ReadStep.readErr ReadErrKind.otherErr] }
    tcpSel := fun _ _ => true
    dial := fun _ _ p => if p = "443" then none else some DialErr.refused
    dnsSel := fun _ => true
    resolve := fun _ => []
    ping := fun _ => false }

/-- An environment where every probe of every kind fails and nothing
resolves; all gate selects pick the send arm. -/
def envAllFail : Env :=
  { icmpSel := fun _ => true
    icmpO := fun _ =>
      { listenOk := true, marshalOk := true, writeOk := true
        reads := [ReadStep.readErr ReadErrKind.otherErr] }
    tcpSel := fun _ _ => true
    dial := fun _ _ _ => some DialErr.timedOut
    dnsSel := fun _ => true
    resolve := fun _ => []
    ping := fun _ => false }

/-- `envAllFail` except that the domain resolves to `ipW` in the v4 family. -/
def envAllFailRes : Env :=
  { envAllFail with
    resolve := fun f => match f with | Fam.v4 => [ipW] | Fam.v6 => [] }

/-- An ICMP probe event (with either outcome). -/
def isIcmpProbeEv : Ev → Bool
  | Ev.icmpProbe _ _ => true
  | _ => false

/-! Basic lemmas about the model. -/

theorem gateStep_none (g : GateId) (cap : Nat) (tr : List Ev) :
    tr.foldl (gateStep g cap) none = none := by
  induction tr with
  | nil => rfl
  | cons e r ih => simpa [List.foldl, gateStep] using ih

theorem runGate_append (g : GateId) (cap : Nat) (t1 t2 : List Ev) (c : Nat) :
    runGate g cap (t1 ++ t2) c =
      match runGate g cap t1 c with
      | some c1 => runGate g cap t2 c1
      | none => none := by
  unfold runGate
  rw [List.foldl_append]
  cases h : List.foldl (gateStep g cap) (some c) t1 with
  | some c1 => rfl
  | none => exact gateStep_none g cap t2

theorem gatedStep_none (tr : List Ev) : tr.foldl gatedStep none = none := by
  induction tr with
  | nil => rfl
  | cons e r ih => simpa [List.foldl, gatedStep] using ih

theorem gatedScan_append (t1 t2 : List Ev) (c : Nat) :
    gatedScan (t1 ++ t2) c =
      match gatedScan t1 c with
      | some c1 => gatedScan t2 c1
      | none => none := by
  unfold gatedScan
  rw [List.foldl_append]
  cases h : List.foldl gatedStep (some c) t1 with
  | some c1 => rfl
  | none => exact gatedStep_none t2

/-- Claim C4: the ICMP read loop accepts exactly the echo reply of the
probed address's own protocol.  The code tests the parsed type against both
families' echo-reply constants, but `icmp.ParseMessage` tags the parsed
type with the protocol it was given, so the cross-family disjunct can never
hold and the loop coincides with the specification's family-matching loop:
non-matching packets are discarded and reading continues, while deadline
expiry, context cancellation or any other read error yields failure. -/
theorem C4_read_loop_matches_family (ip : IPAddr) (reads : List ReadStep) :
    icmpReadLoop (getProto ip) reads = specReadLoop ip.fam reads := by
  induction reads with
  | nil => cases hf : ip.fam <;> simp [icmpReadLoop, specReadLoop]
  | cons s rest ih =>
    cases s with
    | ctxDone => simp [icmpReadLoop, specReadLoop]
    | readErr k => simp [icmpReadLoop, specReadLoop]
    | recv p =>
      cases hf : ip.fam with
      | v4 =>
        have hp : getProto ip = 1 := by simp [getProto, hf]
        rw [hp] at ih ⊢
        by_cases he : p.parseErr
        · simp [icmpReadLoop, specReadLoop, parseMessage, protoOf, he, hf, ih]
        · simp [icmpReadLoop, specReadLoop, parseMessage, protoOf, he, hf,
            echoReplyV4, echoReplyV6, expectedEchoReply, ih]
      | v6 =>
        have hp : getProto ip = 58 := by simp [getProto, hf]
        rw [hp] at ih ⊢
        by_cases he : p.parseErr
        · simp [icmpReadLoop, specReadLoop, parseMessage, protoOf, he, hf, ih]
        · simp [icmpReadLoop, specReadLoop, parseMessage, protoOf, he, hf,
            echoReplyV4, echoReplyV6, expectedEchoReply, ih]

/-- Claim C7: `doICMP` never propagates an error: it is a total boolean
function, socket-open failure, marshalling failure and send failure each
force the result `false` whatever the rest of the oracle says, an exhausted
or error-terminated read stream forces `false`, and the probe reports
`true` exactly when every setup step succeeded and the read loop accepted a
reply. -/
theorem C7_doICMP_total_boolean (e : ICMPEnv) (ip : IPAddr) (l m w : Bool)
    (rs : List ReadStep) (k : ReadErrKind) (r : List ReadStep) :
    (doICMP { listenOk := false, marshalOk := m, writeOk := w, reads := rs } ip = false) ∧
    (doICMP { listenOk := l, marshalOk := false, writeOk := w, reads := rs } ip = false) ∧
    (doICMP { listenOk := l, marshalOk := m, writeOk := false, reads := rs } ip = false) ∧
    (doICMP { listenOk := l, marshalOk := m, writeOk := w, reads := [] } ip = false) ∧
    (doICMP { listenOk := l, marshalOk := m, writeOk := w,
              reads := ReadStep.readErr k :: r } ip = false) ∧
    (doICMP { listenOk := l, marshalOk := m, writeOk := w,
              reads := ReadStep.ctxDone :: r } ip = false) ∧
    (doICMP e ip = true ↔
      e.listenOk = true ∧ e.marshalOk = true ∧ e.writeOk = true ∧
      icmpReadLoop (getProto ip) e.reads = true) := by
  refine ⟨?_, ?_, ?_, ?_, ?_, ?_, ?_⟩
  · simp [doICMP]
  · cases l <;> simp [doICMP]
  · cases l <;> cases m <;> simp [doICMP]
  · cases l <;> cases m <;> cases w <;> simp [doICMP, icmpReadLoop]
  · cases l <;> cases m <;> cases w <;> simp [doICMP, icmpReadLoop]
  · cases l <;> cases m <;> cases w <;> simp [doICMP, icmpReadLoop]
  · cases hl : e.listenOk <;> cases hm : e.marshalOk <;> cases hw : e.writeOk <;>
      simp [doICMP, hl, hm, hw]

/-- Claim C6: `getEnvInt` falls back to the default when the trimmed value
is empty (in particular when the variable is unset, since `os.Getenv`
returns the empty string), fails to parse, or parses to a non-positive
integer, and returns the parsed value when it is positive; `init` sizes the
three gates from `MAX_DNS`, `MAX_ICMP`, `MAX_TCP` with defaults 4096, 8192,
8192. -/
theorem C6_getEnvInt_config (raw : String) (d : Int) (getenv : String → String) :
    (trimSpace raw = "" → getEnvInt raw d = d) ∧
    (atoi (trimSpace raw) = none → getEnvInt raw d = d) ∧
    (∀ i : Int, atoi (trimSpace raw) = some i → i ≤ 0 → getEnvInt raw d = d) ∧
    (∀ i : Int, atoi (trimSpace raw) = some i → 0 < i → getEnvInt raw d = i) ∧
    initCaps getenv =
      { dnsCap := getEnvInt (getenv "MAX_DNS") 4096
        icmpCap := getEnvInt (getenv "MAX_ICMP") 8192
        tcpCap := getEnvInt (getenv "MAX_TCP") 8192 } := by
  refine ⟨?_, ?_, ?_, ?_, rfl⟩
  · intro h; simp [getEnvInt, h]
  · intro h
    by_cases hv : trimSpace raw = "" <;> simp [getEnvInt, hv, h]
  · intro i hi hle
    by_cases hv : trimSpace raw = ""
    · simp [getEnvInt, hv]
    · simp [getEnvInt, hv, hi, hle]
  · intro i hi hpos
    by_cases hv : trimSpace raw = ""
    · rw [hv] at hi
      have hnone : atoi "" = none := rfl
      rw [hnone] at hi
      exact Option.noConfusion hi
    · have hne : ¬ i ≤ 0 := by omega
      simp [getEnvInt, hv, hi, hne]

/-! Per-attempt lemmas: each gated attempt restores the gate state, keeps
the gate accounting and the ICMP-gating discipline intact, and reports
success exactly as its trace records it. -/

theorem icmpAttempt_gs (env : Env) (ip : IPAddr) (gs : Gates) :
    (icmpAttempt env ip gs).2.1 = gs := by
  obtain ⟨gd, ⟨ic, iu⟩, gt⟩ := gs
  by_cases h : env.icmpSel ip = true ∧ iu < ic
  · simp [icmpAttempt, tryAcquire, h, releaseG]
  · simp [icmpAttempt, tryAcquire, h]

theorem icmpAttempt_runGate (env : Env) (ip : IPAddr) (gs : Gates) (g : GateId) :
    runGate g (gateOf g gs).cap (icmpAttempt env ip gs).2.2 (gateOf g gs).cur =
      some (gateOf g gs).cur := by
  obtain ⟨gd, ⟨ic, iu⟩, gt⟩ := gs
  by_cases h : env.icmpSel ip = true ∧ iu < ic
  · cases g <;>
      simp [icmpAttempt, tryAcquire, h, runGate, gateStep, gateOf, List.foldl]
  · cases g <;>
      simp [icmpAttempt, tryAcquire, h, runGate, gateStep, gateOf, List.foldl]

theorem icmpAttempt_gatedScan (env : Env) (ip : IPAddr) (gs : Gates) (c : Nat) :
    gatedScan (icmpAttempt env ip gs).2.2 c = some c := by
  by_cases h : env.icmpSel ip = true ∧ gs.icmp.cur < gs.icmp.cap
  · simp [icmpAttempt, tryAcquire, h, gatedScan, gatedStep, List.foldl]
  · simp [icmpAttempt, tryAcquire, h, gatedScan, gatedStep, List.foldl]

theorem icmpAttempt_res (env : Env) (ip : IPAddr) (gs : Gates) :
    (icmpAttempt env ip gs).1 =
      ((tryAcquire (env.icmpSel ip) gs.icmp).1 && doICMP (env.icmpO ip) ip) := by
  by_cases h : env.icmpSel ip = true ∧ gs.icmp.cur < gs.icmp.cap
  · simp [icmpAttempt, tryAcquire, h]
  · simp [icmpAttempt, tryAcquire, h]

theorem icmpAttempt_any_succ (env : Env) (ip : IPAddr) (gs : Gates) :
    (icmpAttempt env ip gs).2.2.any isSuccEv = (icmpAttempt env ip gs).1 := by
  by_cases h : env.icmpSel ip = true ∧ gs.icmp.cur < gs.icmp.cap <;>
    cases hr : doICMP (env.icmpO ip) ip <;>
      simp [icmpAttempt, tryAcquire, h, hr, isSuccEv]

theorem icmpAttempt_any_fam (env : Env) (ip : IPAddr) (gs : Gates) (f2 : Fam) :
    (icmpAttempt env ip gs).2.2.any (isFamSuccEv f2) =
      (decide (ip.fam = f2) && (icmpAttempt env ip gs).1) := by
  by_cases h : env.icmpSel ip = true ∧ gs.icmp.cur < gs.icmp.cap <;>
    cases hr : doICMP (env.icmpO ip) ip <;>
      simp [icmpAttempt, tryAcquire, h, hr, isFamSuccEv]

theorem icmpAttempt_all_icmp (env : Env) (ip : IPAddr) (gs : Gates) :
    (icmpAttempt env ip gs).2.2.all isIcmpEv = true := by
  by_cases h : env.icmpSel ip = true ∧ gs.icmp.cur < gs.icmp.cap <;>
    simp [icmpAttempt, tryAcquire, h, isIcmpEv]

theorem tcpAttempt_gs (env : Env) (f : Fam) (ip : IPAddr) (port : String) (gs : Gates) :
    (tcpAttempt env f ip port gs).2.1 = gs := by
  obtain ⟨gd, gi, ⟨tc, tu⟩⟩ := gs
  by_cases h : env.tcpSel ip port = true ∧ tu < tc <;>
    cases hd : env.dial (dialNetOf f) ip port <;>
      simp [tcpAttempt, tryAcquire, h, hd, releaseG]

theorem tcpAttempt_runGate (env : Env) (f : Fam) (ip : IPAddr) (port : String)
    (gs : Gates) (g : GateId) :
    runGate g (gateOf g gs).cap (tcpAttempt env f ip port gs).2.2 (gateOf g gs).cur =
      some (gateOf g gs).cur := by
  obtain ⟨gd, gi, ⟨tc, tu⟩⟩ := gs
  by_cases h : env.tcpSel ip port = true ∧ tu < tc <;>
    cases hd : env.dial (dialNetOf f) ip port <;>
      cases g <;>
        simp [tcpAttempt, tryAcquire, h, hd, runGate, gateStep, gateOf, List.foldl]

theorem tcpAttempt_gatedScan (env : Env) (f : Fam) (ip : IPAddr) (port : String)
    (gs : Gates) (c : Nat) :
    gatedScan (tcpAttempt env f ip port gs).2.2 c = some c := by
  by_cases h : env.tcpSel ip port = true ∧ gs.tcp.cur < gs.tcp.cap <;>
    cases hd : env.dial (dialNetOf f) ip port <;>
      simp [tcpAttempt, tryAcquire, h, hd, gatedScan, gatedStep, List.foldl]

theorem tcpAttempt_res (env : Env) (f : Fam) (ip : IPAddr) (port : String) (gs : Gates) :
    (tcpAttempt env f ip port gs).1 =
      ((tryAcquire (env.tcpSel ip port) gs.tcp).1 &&
        (env.dial (dialNetOf f) ip port).isNone) := by
  by_cases h : env.tcpSel ip port = true ∧ gs.tcp.cur < gs.tcp.cap <;>
    cases hd : env.dial (dialNetOf f) ip port <;>
      simp [tcpAttempt, tryAcquire, h, hd]

theorem tcpAttempt_any_succ (env : Env) (f : Fam) (ip : IPAddr) (port : String)
    (gs : Gates) :
    (tcpAttempt env f ip port gs).2.2.any isSuccEv = (tcpAttempt env f ip port gs).1 := by
  by_cases h : env.tcpSel ip port = true ∧ gs.tcp.cur < gs.tcp.cap <;>
    cases hd : env.dial (dialNetOf f) ip port <;>
      simp [tcpAttempt, tryAcquire, h, hd, isSuccEv]

theorem tcpAttempt_any_fam (env : Env) (f : Fam) (ip : IPAddr) (port : String)
    (gs : Gates) (f2 : Fam) :
    (tcpAttempt env f ip port gs).2.2.any (isFamSuccEv f2) =
      (decide (ip.fam = f2) && (tcpAttempt env f ip port gs).1) := by
  by_cases h : env.tcpSel ip port = true ∧ gs.tcp.cur < gs.tcp.cap <;>
    cases hd : env.dial (dialNetOf f) ip port <;>
      simp [tcpAttempt, tryAcquire, h, hd, isFamSuccEv]

theorem tcpAttempt_all_tcp (env : Env) (f : Fam) (ip : IPAddr) (port : String)
    (gs : Gates) :
    (tcpAttempt env f ip port gs).2.2.all isTcpEv = true := by
  by_cases h : env.tcpSel ip port = true ∧ gs.tcp.cur < gs.tcp.cap <;>
    cases hd : env.dial (dialNetOf f) ip port <;>
      simp [tcpAttempt, tryAcquire, h, hd, isTcpEv]

theorem pingWithFamily_any_succ (env : Env) (f : Fam) :
    (pingWithFamily env f).2.any isSuccEv = (pingWithFamily env f).1 := by
  cases hr : env.ping f <;> simp [pingWithFamily, hr, isSuccEv]

theorem pingWithFamily_any_fam (env : Env) (f : Fam) (f2 : Fam) :
    (pingWithFamily env f).2.any (isFamSuccEv f2) =
      (decide (f = f2) && (pingWithFamily env f).1) := by
  cases hr : env.ping f <;> simp [pingWithFamily, hr, isFamSuccEv]

theorem pingWithFamily_all_ping (env : Env) (f : Fam) :
    (pingWithFamily env f).2.all isPingEv = true := by
  simp [pingWithFamily, isPingEv]

theorem pingWithFamily_runGate (env : Env) (f : Fam) (g : GateId) (cap c : Nat) :
    runGate g cap (pingWithFamily env f).2 c = some c := by
  simp [pingWithFamily, runGate, gateStep, List.foldl]

theorem pingWithFamily_gatedScan (env : Env) (f : Fam) (c : Nat) :
    gatedScan (pingWithFamily env f).2 c = some c := by
  simp [pingWithFamily, gatedScan, gatedStep, List.foldl]

theorem dnsLookupFam_gs (env : Env) (f : Fam) (gs : Gates) :
    (dnsLookupFam env f gs).2.1 = gs := by
  obtain ⟨⟨dc, du⟩, gi, gt⟩ := gs
  by_cases h : env.dnsSel f = true ∧ du < dc <;>
    simp [dnsLookupFam, tryAcquire, h, releaseG]

theorem dnsLookupFam_runGate (env : Env) (f : Fam) (gs : Gates) (g : GateId) :
    runGate g (gateOf g gs).cap (dnsLookupFam env f gs).2.2 (gateOf g gs).cur =
      some (gateOf g gs).cur := by
  obtain ⟨⟨dc, du⟩, gi, gt⟩ := gs
  by_cases h : env.dnsSel f = true ∧ du < dc <;>
    cases g <;>
      simp [dnsLookupFam, tryAcquire, h, runGate, gateStep, gateOf, List.foldl]

theorem dnsLookupFam_gatedScan (env : Env) (f : Fam) (gs : Gates) (c : Nat) :
    gatedScan (dnsLookupFam env f gs).2.2 c = some c := by
  by_cases h : env.dnsSel f = true ∧ gs.dns.cur < gs.dns.cap <;>
    simp [dnsLookupFam, tryAcquire, h, gatedScan, gatedStep, List.foldl]

theorem dnsLookupFam_no_succ (env : Env) (f : Fam) (gs : Gates) (f2 : Fam) :
    (dnsLookupFam env f gs).2.2.any (isFamSuccEv f2) = false ∧
    (dnsLookupFam env f gs).2.2.any isSuccEv = false := by
  by_cases h : env.dnsSel f = true ∧ gs.dns.cur < gs.dns.cap <;>
    simp [dnsLookupFam, tryAcquire, h, isFamSuccEv, isSuccEv]

theorem dnsLookupFam_sub (env : Env) (f : Fam) (gs : Gates) (ip : IPAddr) :
    ip ∈ (dnsLookupFam env f gs).1 → ip ∈ env.resolve f := by
  by_cases h : env.dnsSel f = true ∧ gs.dns.cur < gs.dns.cap
  · by_cases hl : (env.resolve f).length > 0 <;>
      simp [dnsLookupFam, tryAcquire, h, hl]
  · simp [dnsLookupFam, tryAcquire, h]

/-! Lifting the per-attempt lemmas over the racing loops. -/

theorem raceEcho_gs (env : Env) (ips : List IPAddr) (gs : Gates) :
    (raceEcho env ips gs).2.1 = gs := by
  induction ips generalizing gs with
  | nil => rfl
  | cons ip rest ih => simp [raceEcho, icmpAttempt_gs, ih]

theorem raceEcho_runGate (env : Env) (ips : List IPAddr) (gs : Gates) (g : GateId) :
    runGate g (gateOf g gs).cap (raceEcho env ips gs).2.2 (gateOf g gs).cur =
      some (gateOf g gs).cur := by
  induction ips generalizing gs with
  | nil => simp [raceEcho, runGate, List.foldl]
  | cons ip rest ih =>
    simp [raceEcho, icmpAttempt_gs, runGate_append, icmpAttempt_runGate, ih]

theorem raceEcho_gatedScan (env : Env) (ips : List IPAddr) (gs : Gates) (c : Nat) :
    gatedScan (raceEcho env ips gs).2.2 c = some c := by
  induction ips generalizing gs c with
  | nil => simp [raceEcho, gatedScan, List.foldl]
  | cons ip rest ih =>
    simp [raceEcho, icmpAttempt_gs, gatedScan_append, icmpAttempt_gatedScan, ih]

theorem raceEcho_any_succ (env : Env) (ips : List IPAddr) (gs : Gates) :
    (raceEcho env ips gs).2.2.any isSuccEv = (raceEcho env ips gs).1 := by
  induction ips generalizing gs with
  | nil => rfl
  | cons ip rest ih =>
    simp [raceEcho, icmpAttempt_gs, List.any_append, icmpAttempt_any_succ, ih]

theorem raceEcho_any_fam (env : Env) (ips : List IPAddr) (gs : Gates) (f f2 : Fam)
    (h : ∀ ip ∈ ips, ip.fam = f) :
    (raceEcho env ips gs).2.2.any (isFamSuccEv f2) =
      (decide (f = f2) && (raceEcho env ips gs).1) := by
  induction ips generalizing gs with
  | nil => simp [raceEcho]
  | cons ip rest ih =>
    have hip : ip.fam = f := h ip (List.mem_cons_self ip rest)
    have hrest : ∀ q ∈ rest, q.fam = f := fun q hq => h q (List.mem_cons_of_mem ip hq)
    have hih := ih gs hrest
    simp only [raceEcho, icmpAttempt_gs, List.any_append, icmpAttempt_any_fam, hip, hih]
    cases hd : decide (f = f2) <;> simp

theorem raceEcho_all_icmp (env : Env) (ips : List IPAddr) (gs : Gates) :
    (raceEcho env ips gs).2.2.all isIcmpEv = true := by
  induction ips generalizing gs with
  | nil => rfl
  | cons ip rest ih =>
    simp [raceEcho, icmpAttempt_gs, List.all_append, icmpAttempt_all_icmp, ih]

theorem tcpPortLoop_gs (env : Env) (f : Fam) (ip : IPAddr) (ports : List String)
    (gs : Gates) : (tcpPortLoop env f ip ports gs).2.1 = gs := by
  induction ports generalizing gs with
  | nil => rfl
  | cons p rest ih => simp [tcpPortLoop, tcpAttempt_gs, ih]

theorem tcpPortLoop_runGate (env : Env) (f : Fam) (ip : IPAddr) (ports : List String)
    (gs : Gates) (g : GateId) :
    runGate g (gateOf g gs).cap (tcpPortLoop env f ip ports gs).2.2 (gateOf g gs).cur =
      some (gateOf g gs).cur := by
  induction ports generalizing gs with
  | nil => simp [tcpPortLoop, runGate, List.foldl]
  | cons p rest ih =>
    simp [tcpPortLoop, tcpAttempt_gs, runGate_append, tcpAttempt_runGate, ih]

theorem tcpPortLoop_gatedScan (env : Env) (f : Fam) (ip : IPAddr) (ports : List String)
    (gs : Gates) (c : Nat) :
    gatedScan (tcpPortLoop env f ip ports gs).2.2 c = some c := by
  induction ports generalizing gs c with
  | nil => simp [tcpPortLoop, gatedScan, List.foldl]
  | cons p rest ih =>
    simp [tcpPortLoop, tcpAttempt_gs, gatedScan_append, tcpAttempt_gatedScan, ih]

theorem tcpPortLoop_any_succ (env : Env) (f : Fam) (ip : IPAddr) (ports : List String)
    (gs : Gates) :
    (tcpPortLoop env f ip ports gs).2.2.any isSuccEv = (tcpPortLoop env f ip ports gs).1 := by
  induction ports generalizing gs with
  | nil => rfl
  | cons p rest ih =>
    simp [tcpPortLoop, tcpAttempt_gs, List.any_append, tcpAttempt_any_succ, ih]

theorem tcpPortLoop_any_fam (env : Env) (f : Fam) (ip : IPAddr) (ports : List String)
    (gs : Gates) (f2 : Fam) :
    (tcpPortLoop env f ip ports gs).2.2.any (isFamSuccEv f2) =
      (decide (ip.fam = f2) && (tcpPortLoop env f ip ports gs).1) := by
  induction ports generalizing gs with
  | nil => simp [tcpPortLoop]
  | cons p rest ih =>
    simp only [tcpPortLoop, tcpAttempt_gs, List.any_append, tcpAttempt_any_fam, ih]
    cases hd : decide (ip.fam = f2) <;> simp

theorem tcpPortLoop_all_tcp (env : Env) (f : Fam) (ip : IPAddr) (ports : List String)
    (gs : Gates) :
    (tcpPortLoop env f ip ports gs).2.2.all isTcpEv = true := by
  induction ports generalizing gs with
  | nil => rfl
  | cons p rest ih =>
    simp [tcpPortLoop, tcpAttempt_gs, List.all_append, tcpAttempt_all_tcp, ih]

theorem tcpConnectRace_gs (env : Env) (f : Fam) (ips : List IPAddr)
    (ports : List String) (gs : Gates) :
    (tcpConnectRace env f ips ports gs).2.1 = gs := by
  induction ips generalizing gs with
  | nil => rfl
  | cons ip rest ih => simp [tcpConnectRace, tcpPortLoop_gs, ih]

theorem tcpConnectRace_runGate (env : Env) (f : Fam) (ips : List IPAddr)
    (ports : List String) (gs : Gates) (g : GateId) :
    runGate g (gateOf g gs).cap (tcpConnectRace env f ips ports gs).2.2
      (gateOf g gs).cur = some (gateOf g gs).cur := by
  induction ips generalizing gs with
  | nil => simp [tcpConnectRace, runGate, List.foldl]
  | cons ip rest ih =>
    simp [tcpConnectRace, tcpPortLoop_gs, runGate_append, tcpPortLoop_runGate, ih]

theorem tcpConnectRace_gatedScan (env : Env) (f : Fam) (ips : List IPAddr)
    (ports : List String) (gs : Gates) (c : Nat) :
    gatedScan (tcpConnectRace env f ips ports gs).2.2 c = some c := by
  induction ips generalizing gs c with
  | nil => simp [tcpConnectRace, gatedScan, List.foldl]
  | cons ip rest ih =>
    simp [tcpConnectRace, tcpPortLoop_gs, gatedScan_append, tcpPortLoop_gatedScan, ih]

theorem tcpConnectRace_any_succ (env : Env) (f : Fam) (ips : List IPAddr)
    (ports : List String) (gs : Gates) :
    (tcpConnectRace env f ips ports gs).2.2.any isSuccEv =
      (tcpConnectRace env f ips ports gs).1 := by
  induction ips generalizing gs with
  | nil => rfl
  | cons ip rest ih =>
    simp [tcpConnectRace, tcpPortLoop_gs, List.any_append, tcpPortLoop_any_succ, ih]

theorem tcpConnectRace_any_fam (env : Env) (f : Fam) (ips : List IPAddr)
    (ports : List String) (gs : Gates) (f2 : Fam)
    (h : ∀ ip ∈ ips, ip.fam = f) :
    (tcpConnectRace env f ips ports gs).2.2.any (isFamSuccEv f2) =
      (decide (f = f2) && (tcpConnectRace env f ips ports gs).1) := by
  induction ips generalizing gs with
  | nil => simp [tcpConnectRace]
  | cons ip rest ih =>
    have hip : ip.fam = f := h ip (List.mem_cons_self ip rest)
    have hrest : ∀ q ∈ rest, q.fam = f := fun q hq => h q (List.mem_cons_of_mem ip hq)
    have hih := ih gs hrest
    simp only [tcpConnectRace, tcpPortLoop_gs, List.any_append, tcpPortLoop_any_fam,
      hip, hih]
    cases hd : decide (f = f2) <;> simp

theorem tcpConnectRace_all_tcp (env : Env) (f : Fam) (ips : List IPAddr)
    (ports : List String) (gs : Gates) :
    (tcpConnectRace env f ips ports gs).2.2.all isTcpEv = true := by
  induction ips generalizing gs with
  | nil => rfl
  | cons ip rest ih =>
    simp [tcpConnectRace, tcpPortLoop_gs, List.all_append, tcpPortLoop_all_tcp, ih]

/-! Pointwise facts about event classifiers, and list-level consequences. -/

theorem evFacts (e : Ev) :
    (isSuccEv e = false → isIcmpSuccEv e = false) ∧
    (isSuccEv e = false → isTcpSuccEv e = false) ∧
    (isTcpEv e = true → isIcmpSuccEv e = false ∧ isPingEv e = false) ∧
    (isIcmpEv e = true → isTcpEv e = false ∧ isPingEv e = false ∧ isTcpSuccEv e = false) ∧
    (isPingEv e = true → isIcmpSuccEv e = false ∧ isTcpSuccEv e = false) := by
  cases e with
  | acq g ok =>
    cases g <;> cases ok <;>
      simp [isSuccEv, isIcmpSuccEv, isTcpSuccEv, isTcpEv, isIcmpEv, isPingEv]
  | rel g =>
    cases g <;>
      simp [isSuccEv, isIcmpSuccEv, isTcpSuccEv, isTcpEv, isIcmpEv, isPingEv]
  | dnsLook f =>
    simp [isSuccEv, isIcmpSuccEv, isTcpSuccEv, isTcpEv, isIcmpEv, isPingEv]
  | icmpProbe ip ok =>
    cases ok <;>
      simp [isSuccEv, isIcmpSuccEv, isTcpSuccEv, isTcpEv, isIcmpEv, isPingEv]
  | tcpProbe ip p ok =>
    cases ok <;>
      simp [isSuccEv, isIcmpSuccEv, isTcpSuccEv, isTcpEv, isIcmpEv, isPingEv]
  | tcpClose ip p =>
    simp [isSuccEv, isIcmpSuccEv, isTcpSuccEv, isTcpEv, isIcmpEv, isPingEv]
  | sysPing f ok =>
    cases ok <;>
      simp [isSuccEv, isIcmpSuccEv, isTcpSuccEv, isTcpEv, isIcmpEv, isPingEv]

theorem any_false_of_all (t : List Ev) (p q : Ev → Bool)
    (hpq : ∀ e, p e = true → q e = false) (h : t.all p = true) : t.any q = false := by
  induction t with
  | nil => rfl
  | cons e r ih =>
    simp only [List.all_cons, Bool.and_eq_true] at h
    have he := hpq e h.1
    simp [List.any_cons, he, ih h.2]

theorem any_false_of_any (t : List Ev) (p q : Ev → Bool)
    (hpq : ∀ e, p e = false → q e = false) (h : t.any p = false) : t.any q = false := by
  induction t with
  | nil => rfl
  | cons e r ih =>
    simp only [List.any_cons, Bool.or_eq_false_iff] at h
    have he := hpq e h.1
    simp [List.any_cons, he, ih h.2]

/-! Lemmas about `familyRace` (the per-family goroutine body of the domain
path) and `literalProbe` (the literal-IP arm). -/

theorem familyRace_gs (env : Env) (f : Fam) (ips : List IPAddr) (gs : Gates) :
    (familyRace env f ips gs).2.1 = gs := by
  by_cases h1 : (raceEcho env ips gs).1 = true
  · simp [familyRace, raceEcho_gs, h1]
  · by_cases h2 : (tcpConnectRace env f ips stagePorts gs).1 = true <;>
      simp [familyRace, raceEcho_gs, tcpConnectRace_gs, h1, h2]

theorem familyRace_runGate (env : Env) (f : Fam) (ips : List IPAddr) (gs : Gates)
    (g : GateId) :
    runGate g (gateOf g gs).cap (familyRace env f ips gs).2.2 (gateOf g gs).cur =
      some (gateOf g gs).cur := by
  by_cases h1 : (raceEcho env ips gs).1 = true
  · simp [familyRace, raceEcho_gs, h1, raceEcho_runGate]
  · by_cases h2 : (tcpConnectRace env f ips stagePorts gs).1 = true <;>
      simp [familyRace, raceEcho_gs, tcpConnectRace_gs, h1, h2, runGate_append,
        raceEcho_runGate, tcpConnectRace_runGate, pingWithFamily_runGate]

theorem familyRace_gatedScan (env : Env) (f : Fam) (ips : List IPAddr) (gs : Gates)
    (c : Nat) :
    gatedScan (familyRace env f ips gs).2.2 c = some c := by
  by_cases h1 : (raceEcho env ips gs).1 = true
  · simp [familyRace, raceEcho_gs, h1, raceEcho_gatedScan]
  · by_cases h2 : (tcpConnectRace env f ips stagePorts gs).1 = true <;>
      simp [familyRace, raceEcho_gs, tcpConnectRace_gs, h1, h2, gatedScan_append,
        raceEcho_gatedScan, tcpConnectRace_gatedScan, pingWithFamily_gatedScan]

theorem familyRace_any_succ (env : Env) (f : Fam) (ips : List IPAddr) (gs : Gates) :
    (familyRace env f ips gs).2.2.any isSuccEv = (familyRace env f ips gs).1 := by
  by_cases h1 : (raceEcho env ips gs).1 = true
  · simp [familyRace, raceEcho_gs, h1, raceEcho_any_succ]
  · by_cases h2 : (tcpConnectRace env f ips stagePorts gs).1 = true <;>
      simp [familyRace, raceEcho_gs, tcpConnectRace_gs, h1, h2, List.any_append,
        raceEcho_any_succ, tcpConnectRace_any_succ, pingWithFamily_any_succ]

theorem familyRace_any_fam (env : Env) (f : Fam) (ips : List IPAddr) (gs : Gates)
    (f2 : Fam) (h : ∀ ip ∈ ips, ip.fam = f) :
    (familyRace env f ips gs).2.2.any (isFamSuccEv f2) =
      (decide (f = f2) && (familyRace env f ips gs).1) := by
  by_cases h1 : (raceEcho env ips gs).1 = true
  · simp [familyRace, raceEcho_gs, h1, raceEcho_any_fam env ips gs f f2 h]
  · by_cases h2 : (tcpConnectRace env f ips stagePorts gs).1 = true <;>
      simp [familyRace, raceEcho_gs, tcpConnectRace_gs, h1, h2, List.any_append,
        raceEcho_any_fam env ips gs f f2 h,
        tcpConnectRace_any_fam env f ips stagePorts gs f2 h,
        pingWithFamily_any_fam]

theorem literalProbe_res (env : Env) (ip : IPAddr) (f : Fam) :
    (literalProbe env ip f).1 = (doICMP (env.icmpO ip) ip || env.ping f) := by
  cases hr : doICMP (env.icmpO ip) ip <;> simp [literalProbe, pingWithFamily, hr]

theorem literalProbe_any_fam (env : Env) (ip : IPAddr) (f : Fam) (f2 : Fam)
    (hip : ip.fam = f) :
    (literalProbe env ip f).2.any (isFamSuccEv f2) =
      (decide (f = f2) && (literalProbe env ip f).1) := by
  cases hr : doICMP (env.icmpO ip) ip <;> cases hp : env.ping f <;>
    simp [literalProbe, pingWithFamily, hr, hp, isFamSuccEv, hip]

theorem literalProbe_no_tcp_dns_acq (env : Env) (ip : IPAddr) (f : Fam) :
    (literalProbe env ip f).2.any isTcpEv = false ∧
    (literalProbe env ip f).2.any isDnsEv = false ∧
    (literalProbe env ip f).2.any isIcmpProbeEv = true ∧
    (literalProbe env ip f).2.any
      (fun e => match e with | Ev.acq _ _ => true | Ev.rel _ => true | _ => false) =
      false := by
  cases hr : doICMP (env.icmpO ip) ip <;>
    simp [literalProbe, pingWithFamily, hr, isTcpEv, isDnsEv, isIcmpProbeEv]

theorem literalProbe_runGate (env : Env) (ip : IPAddr) (f : Fam) (g : GateId)
    (cap c : Nat) :
    runGate g cap (literalProbe env ip f).2 c = some c := by
  cases hr : doICMP (env.icmpO ip) ip <;>
    simp [literalProbe, pingWithFamily, hr, runGate, gateStep, List.foldl]

theorem literalProbe_gatedScan_zero (env : Env) (ip : IPAddr) (f : Fam) :
    gatedScan (literalProbe env ip f).2 0 = none := by
  cases hr : doICMP (env.icmpO ip) ip <;>
    simp [literalProbe, pingWithFamily, hr, gatedScan, gatedStep, List.foldl]

theorem dnsLookupFam_empty (env : Env) (f : Fam) (gs : Gates)
    (h : env.resolve f = []) : (dnsLookupFam env f gs).1 = [] := by
  by_cases ha : env.dnsSel f = true ∧ gs.dns.cur < gs.dns.cap <;>
    simp [dnsLookupFam, tryAcquire, ha, h]

/-- Claim C9: for every input and every gate, detectAndPing returns the
gate states exactly as it received them (each successful acquisition was
released exactly once — no slot leaks), and replaying the request's trace
through the gate-accounting machine succeeds: no successful acquisition
ever happens with `cap` slots already outstanding (the count never exceeds
the configured capacity) and no release happens with no slot outstanding. -/
theorem C9_gate_balance (env : Env) (inp : Input) (gs : Gates) (g : GateId) :
    (detectAndPing env inp gs).2.1 = gs ∧
    runGate g (gateOf g gs).cap (detectAndPing env inp gs).2.2 (gateOf g gs).cur =
      some (gateOf g gs).cur := by
  cases inp with
  | lit ip =>
    cases hf : ip.fam <;>
      simp [detectAndPing, parseIP, hf, literalProbe_runGate]
  | domain host =>
    by_cases h4 : (dnsLookupFam env Fam.v4 gs).1.length > 0 <;>
    by_cases h6 : (dnsLookupFam env Fam.v6 gs).1.length > 0 <;>
      simp [detectAndPing, parseIP, dnsLookupFam_gs, familyRace_gs, h4, h6,
        runGate_append, dnsLookupFam_runGate, familyRace_runGate]

/-- Claim C10: a literal-IP request never touches the DNS admission gate:
the DNS gate state is returned unchanged and the trace holds no DNS event
(no acquisition, no release, no lookup). -/
theorem C10_literal_no_dns (env : Env) (ip : IPAddr) (gs : Gates) :
    (detectAndPing env (Input.lit ip) gs).2.1.dns = gs.dns ∧
    (detectAndPing env (Input.lit ip) gs).2.2.any isDnsEv = false := by
  cases hf : ip.fam <;>
    simp [detectAndPing, parseIP, hf, literalProbe_no_tcp_dns_acq]

/-- Claim C3 counterexample: on the literal IPv4 input `ipW` (an address
whose ICMP probe fails), detectAndPing performs an ICMP probe (the trace
holds an `icmpProbe` event) while the ICMP-gating replay faults: the probe
happens with no ICMP-gate slot held, so not every ICMP prober attempt first
acquires the ICMP admission gate. -/
theorem C3_counterexample :
    (detectAndPing envTcpOnly (Input.lit ipW) gs0).2.2.any isIcmpProbeEv = true ∧
    gatedScan (detectAndPing envTcpOnly (Input.lit ipW) gs0).2.2 0 = none := by
  constructor
  · rfl
  · rfl

/-- Claim C3 amended: for domain inputs every ICMP prober attempt holds an
ICMP-gate slot while probing (the gating replay of the whole request trace
succeeds from zero held slots), and an attempt whose acquisition fails
reports failure (the attempt result is the conjunction of the acquisition
outcome and the probe outcome); the literal-IP path, by contrast, probes
with no ICMP-gate slot held (the gating replay faults). -/
theorem C3_amended_gating (env : Env) (host : String) (gs : Gates) (ip : IPAddr) :
    gatedScan (detectAndPing env (Input.domain host) gs).2.2 0 = some 0 ∧
    (icmpAttempt env ip gs).1 =
      ((tryAcquire (env.icmpSel ip) gs.icmp).1 && doICMP (env.icmpO ip) ip) ∧
    gatedScan (detectAndPing env (Input.lit ip) gs).2.2 0 = none := by
  refine ⟨?_, icmpAttempt_res env ip gs, ?_⟩
  · by_cases h4 : (dnsLookupFam env Fam.v4 gs).1.length > 0 <;>
    by_cases h6 : (dnsLookupFam env Fam.v6 gs).1.length > 0 <;>
      simp [detectAndPing, parseIP, dnsLookupFam_gs, familyRace_gs, h4, h6,
        gatedScan_append, dnsLookupFam_gatedScan, familyRace_gatedScan]
  · cases hf : ip.fam <;>
      simp [detectAndPing, parseIP, hf, literalProbe_gatedScan_zero]

/-- Claim C2 counterexample: on the literal IPv4 input `ipW`, with an
oracle where the ICMP probe fails, a TCP connect to port 443 succeeds and
the system ping fails, the probe chain of spec §4.3 (embodied by
`familyRace`, the very chain the domain path runs) reports reachable, yet
detectAndPing's literal path answers `no` — so the literal path does not
run the full §4.3 chain. -/
theorem C2_counterexample :
    (detectAndPing envTcpOnly (Input.lit ipW) gs0).1.IPv4 = "no" ∧
    (familyRace envTcpOnly Fam.v4 [ipW] gs0).1 = true := by
  constructor
  · rfl
  · rfl

/-- Claim C2 amended: for a literal-IP input, detectAndPing runs a single
ungated ICMP probe on the parsed address and, only if it fails, the
system-ping fallback — the TCP stage is skipped entirely and no admission
gate is touched — writes that boolean outcome into the matching family's
field, and leaves the other family's field at `no`. -/
theorem C2_amended_literal (env : Env) (ip : IPAddr) (gs : Gates) :
    fieldOf (detectAndPing env (Input.lit ip) gs).1 ip.fam =
      (if doICMP (env.icmpO ip) ip || env.ping ip.fam then "ok" else "no") ∧
    fieldOf (detectAndPing env (Input.lit ip) gs).1 (otherFam ip.fam) = "no" ∧
    (detectAndPing env (Input.lit ip) gs).2.2.any isTcpEv = false ∧
    (detectAndPing env (Input.lit ip) gs).2.2.any
      (fun e => match e with | Ev.acq _ _ => true | Ev.rel _ => true | _ => false) =
      false := by
  cases hf : ip.fam <;>
    simp [detectAndPing, parseIP, hf, otherFam, fieldOf, literalProbe_res,
      literalProbe_no_tcp_dns_acq]

/-- Claim C5: the per-family chain of the domain path escalates strictly:
its trace decomposes into an ICMP segment followed by a TCP segment
followed by a system-ping segment (so stages are contiguous and ordered,
never interleaved); TCP-stage events occur only when the ICMP stage
produced no success; system-ping events occur only when neither the ICMP
nor the TCP stage produced a success; and the family's final result is
true exactly when some stage recorded a successful probe. -/
theorem C5_strict_escalation (env : Env) (f : Fam) (ips : List IPAddr) (gs : Gates) :
    (∃ t1 t2 t3, (familyRace env f ips gs).2.2 = t1 ++ t2 ++ t3 ∧
      t1.all isIcmpEv = true ∧ t2.all isTcpEv = true ∧ t3.all isPingEv = true) ∧
    ((familyRace env f ips gs).2.2.any isTcpEv = true →
      (familyRace env f ips gs).2.2.any isIcmpSuccEv = false) ∧
    ((familyRace env f ips gs).2.2.any isPingEv = true →
      (familyRace env f ips gs).2.2.any isIcmpSuccEv = false ∧
      (familyRace env f ips gs).2.2.any isTcpSuccEv = false) ∧
    ((familyRace env f ips gs).1 = true ↔
      (familyRace env f ips gs).2.2.any isSuccEv = true) := by
  have eA : ∀ e, isSuccEv e = false → isIcmpSuccEv e = false := fun e => (evFacts e).1
  have eB : ∀ e, isSuccEv e = false → isTcpSuccEv e = false := fun e => (evFacts e).2.1
  have eD1 : ∀ e, isIcmpEv e = true → isTcpEv e = false :=
    fun e he => ((evFacts e).2.2.2.1 he).1
  have eD2 : ∀ e, isIcmpEv e = true → isPingEv e = false :=
    fun e he => ((evFacts e).2.2.2.1 he).2.1
  have eD3 : ∀ e, isIcmpEv e = true → isTcpSuccEv e = false :=
    fun e he => ((evFacts e).2.2.2.1 he).2.2
  have eC1 : ∀ e, isTcpEv e = true → isIcmpSuccEv e = false :=
    fun e he => ((evFacts e).2.2.1 he).1
  have eC2 : ∀ e, isTcpEv e = true → isPingEv e = false :=
    fun e he => ((evFacts e).2.2.1 he).2
  have eE1 : ∀ e, isPingEv e = true → isIcmpSuccEv e = false :=
    fun e he => ((evFacts e).2.2.2.2 he).1
  have eE2 : ∀ e, isPingEv e = true → isTcpSuccEv e = false :=
    fun e he => ((evFacts e).2.2.2.2 he).2
  have hIcmpAll := raceEcho_all_icmp env ips gs
  by_cases h1 : (raceEcho env ips gs).1 = true
  · -- ICMP stage already succeeded: only the ICMP segment exists.
    have htr : (familyRace env f ips gs).2.2 = (raceEcho env ips gs).2.2 := by
      simp [familyRace, h1]
    have hres : (familyRace env f ips gs).1 = true := by simp [familyRace, h1]
    have hnt : (familyRace env f ips gs).2.2.any isTcpEv = false := by
      rw [htr]; exact any_false_of_all _ _ _ eD1 hIcmpAll
    have hnp : (familyRace env f ips gs).2.2.any isPingEv = false := by
      rw [htr]; exact any_false_of_all _ _ _ eD2 hIcmpAll
    refine ⟨⟨(raceEcho env ips gs).2.2, [], [], by simp [htr], hIcmpAll, rfl, rfl⟩,
      ?_, ?_, ?_⟩
    · intro hx; rw [hnt] at hx; exact absurd hx (by simp)
    · intro hx; rw [hnp] at hx; exact absurd hx (by simp)
    · rw [hres, htr, raceEcho_any_succ, h1]
  · have h1f : (raceEcho env ips gs).1 = false := by
      cases hb : (raceEcho env ips gs).1
      · rfl
      · exact absurd hb h1
    have hIcmpNoSucc : (raceEcho env ips gs).2.2.any isSuccEv = false := by
      rw [raceEcho_any_succ]; exact h1f
    have hTcpAll := tcpConnectRace_all_tcp env f ips stagePorts gs
    by_cases h2 : (tcpConnectRace env f ips stagePorts gs).1 = true
    · -- TCP stage succeeded: ICMP then TCP segments.
      have htr : (familyRace env f ips gs).2.2 =
          (raceEcho env ips gs).2.2 ++ (tcpConnectRace env f ips stagePorts gs).2.2 := by
        simp [familyRace, raceEcho_gs, h1f, h2]
      have hres : (familyRace env f ips gs).1 = true := by
        simp [familyRace, raceEcho_gs, h1f, h2]
      refine ⟨⟨(raceEcho env ips gs).2.2, (tcpConnectRace env f ips stagePorts gs).2.2,
        [], by simp [htr], hIcmpAll, hTcpAll, rfl⟩, ?_, ?_, ?_⟩
      · intro _
        rw [htr, List.any_append]
        have a1 : (raceEcho env ips gs).2.2.any isIcmpSuccEv = false :=
          any_false_of_any _ _ _ eA hIcmpNoSucc
        have a2 : (tcpConnectRace env f ips stagePorts gs).2.2.any isIcmpSuccEv = false :=
          any_false_of_all _ _ _ eC1 hTcpAll
        rw [a1, a2]; rfl
      · intro hx
        rw [htr, List.any_append] at hx
        have a1 : (raceEcho env ips gs).2.2.any isPingEv = false :=
          any_false_of_all _ _ _ eD2 hIcmpAll
        have a2 : (tcpConnectRace env f ips stagePorts gs).2.2.any isPingEv = false :=
          any_false_of_all _ _ _ eC2 hTcpAll
        rw [a1, a2] at hx; exact absurd hx (by simp)
      · rw [hres, htr, List.any_append, raceEcho_any_succ, tcpConnectRace_any_succ,
          h1f, h2]; simp
    · have h2f : (tcpConnectRace env f ips stagePorts gs).1 = false := by
        cases hb : (tcpConnectRace env f ips stagePorts gs).1
        · rfl
        · exact absurd hb h2
      have hTcpNoSucc : (tcpConnectRace env f ips stagePorts gs).2.2.any isSuccEv = false := by
        rw [tcpConnectRace_any_succ]; exact h2f
      -- Both fast stages failed: all three segments exist.
      have htr : (familyRace env f ips gs).2.2 =
          (raceEcho env ips gs).2.2 ++ (tcpConnectRace env f ips stagePorts gs).2.2 ++
            (pingWithFamily env f).2 := by
        simp [familyRace, raceEcho_gs, tcpConnectRace_gs, h1f, h2f]
      have hres : (familyRace env f ips gs).1 = (pingWithFamily env f).1 := by
        simp [familyRace, raceEcho_gs, tcpConnectRace_gs, h1f, h2f]
      have hPingAll := pingWithFamily_all_ping env f
      have aI : (familyRace env f ips gs).2.2.any isIcmpSuccEv = false := by
        rw [htr, List.any_append, List.any_append]
        have a1 : (raceEcho env ips gs).2.2.any isIcmpSuccEv = false :=
          any_false_of_any _ _ _ eA hIcmpNoSucc
        have a2 : (tcpConnectRace env f ips stagePorts gs).2.2.any isIcmpSuccEv = false :=
          any_false_of_all _ _ _ eC1 hTcpAll
        have a3 : (pingWithFamily env f).2.any isIcmpSuccEv = false :=
          any_false_of_all _ _ _ eE1 hPingAll
        rw [a1, a2, a3]; rfl
      have aT : (familyRace env f ips gs).2.2.any isTcpSuccEv = false := by
        rw [htr, List.any_append, List.any_append]
        have a1 : (raceEcho env ips gs).2.2.any isTcpSuccEv = false :=
          any_false_of_all _ _ _ eD3 hIcmpAll
        have a2 : (tcpConnectRace env f ips stagePorts gs).2.2.any isTcpSuccEv = false :=
          any_false_of_any _ _ _ eB hTcpNoSucc
        have a3 : (pingWithFamily env f).2.any isTcpSuccEv = false :=
          any_false_of_all _ _ _ eE2 hPingAll
        rw [a1, a2, a3]; rfl
      refine ⟨⟨(raceEcho env ips gs).2.2, (tcpConnectRace env f ips stagePorts gs).2.2,
        (pingWithFamily env f).2, htr, hIcmpAll, hTcpAll, hPingAll⟩,
        fun _ => aI, fun _ => ⟨aI, aT⟩, ?_⟩
      · rw [hres, htr, List.any_append, List.any_append, raceEcho_any_succ,
          tcpConnectRace_any_succ, pingWithFamily_any_succ, h1f, h2f]
        simp

theorem okno_eq_ok (b : Bool) :
    (((if b then "ok" else "no") : String) = "ok") ↔ b = true := by
  cases b <;> decide

theorem okno_cases (b : Bool) :
    (((if b then "ok" else "no") : String) = "ok") ∨
    (((if b then "ok" else "no") : String) = "no") := by
  cases b <;> decide

theorem no_ne_ok : (("no" : String) = "ok") ↔ False := by decide

/-- Claim C1: each field of the Detection Result is `ok` exactly when the
request's trace records at least one successful probe of that family
(success of a probe meaning it completed within its governing deadline, as
that is what the probe oracles denote); every field is `ok` or `no` — the
function is total and returns no error — and a domain family that resolved
to no candidate address is reported `no`.  The hypothesis states that the
resolver answers an `ip4`/`ip6` lookup only with addresses of that family,
which is what `net.DefaultResolver.LookupIP` guarantees. -/
theorem C1_ok_iff_probe_success (env : Env) (inp : Input) (gs : Gates)
    (hwf : ∀ f ip, ip ∈ env.resolve f → ip.fam = f) :
    (∀ f, fieldOf (detectAndPing env inp gs).1 f = "ok" ↔
      anySuccess f (detectAndPing env inp gs).2.2 = true) ∧
    (∀ f, fieldOf (detectAndPing env inp gs).1 f = "ok" ∨
      fieldOf (detectAndPing env inp gs).1 f = "no") ∧
    (∀ f, parseIP inp = none → env.resolve f = [] →
      fieldOf (detectAndPing env inp gs).1 f = "no") := by
  cases inp with
  | lit ip =>
    refine ⟨?_, ?_, ?_⟩
    · intro f
      cases hf : ip.fam
      · have hlit := literalProbe_any_fam env ip Fam.v4 f hf
        cases f <;>
          simp [detectAndPing, parseIP, hf, fieldOf, anySuccess, hlit,
            okno_eq_ok, no_ne_ok]
      · have hlit := literalProbe_any_fam env ip Fam.v6 f hf
        cases f <;>
          simp [detectAndPing, parseIP, hf, fieldOf, anySuccess, hlit,
            okno_eq_ok, no_ne_ok]
    · intro f
      cases hf : ip.fam <;> cases f <;>
        simp [detectAndPing, parseIP, hf, fieldOf, okno_cases]
    · intro f hpp
      exact absurd hpp (by simp [parseIP])
  | domain host =>
    have hsub4 : ∀ q ∈ (dnsLookupFam env Fam.v4 gs).1, q.fam = Fam.v4 :=
      fun q hq => hwf Fam.v4 q (dnsLookupFam_sub env Fam.v4 gs q hq)
    have hsub6 : ∀ q ∈ (dnsLookupFam env Fam.v6 gs).1, q.fam = Fam.v6 :=
      fun q hq => hwf Fam.v6 q (dnsLookupFam_sub env Fam.v6 gs q hq)
    have hfr4 : ∀ f2, (familyRace env Fam.v4 (dnsLookupFam env Fam.v4 gs).1 gs).2.2.any
        (isFamSuccEv f2) =
        (decide (Fam.v4 = f2) &&
          (familyRace env Fam.v4 (dnsLookupFam env Fam.v4 gs).1 gs).1) :=
      fun f2 => familyRace_any_fam env Fam.v4 _ gs f2 hsub4
    have hfr6 : ∀ f2, (familyRace env Fam.v6 (dnsLookupFam env Fam.v6 gs).1 gs).2.2.any
        (isFamSuccEv f2) =
        (decide (Fam.v6 = f2) &&
          (familyRace env Fam.v6 (dnsLookupFam env Fam.v6 gs).1 gs).1) :=
      fun f2 => familyRace_any_fam env Fam.v6 _ gs f2 hsub6
    have hdns : ∀ f0 gsx f2, (dnsLookupFam env f0 gsx).2.2.any (isFamSuccEv f2) = false :=
      fun f0 gsx f2 => (dnsLookupFam_no_succ env f0 gsx f2).1
    refine ⟨?_, ?_, ?_⟩
    · intro f
      by_cases h4 : (dnsLookupFam env Fam.v4 gs).1.length > 0 <;>
      by_cases h6 : (dnsLookupFam env Fam.v6 gs).1.length > 0 <;>
      cases f <;>
        simp [detectAndPing, parseIP, dnsLookupFam_gs, familyRace_gs, h4, h6,
          anySuccess, List.any_append, hdns, hfr4, hfr6, fieldOf,
          okno_eq_ok, no_ne_ok]
    · intro f
      by_cases h4 : (dnsLookupFam env Fam.v4 gs).1.length > 0 <;>
      by_cases h6 : (dnsLookupFam env Fam.v6 gs).1.length > 0 <;>
      cases f <;>
        simp [detectAndPing, parseIP, dnsLookupFam_gs, familyRace_gs, h4, h6,
          fieldOf, okno_cases]
    · intro f hpp hres
      have hemp := dnsLookupFam_empty env f gs hres
      cases f <;>
        simp [detectAndPing, parseIP, dnsLookupFam_gs, hemp, fieldOf]

/-- Claim C8: a TCP probe attempt that acquired its gate slot succeeds
exactly when `DialContext` establishes the connection within the dialer's
1200 ms per-attempt timeout (which is nested inside the stage's 2200 ms
budget): on success it returns true and its trace shows the connection
closed immediately after the probe with nothing else done with it; on any
dial error — the same for every error subtype — it returns false with no
close event. -/
theorem C8_tcp_attempt (env : Env) (f : Fam) (ip : IPAddr) (port : String)
    (gs : Gates) :
    tcpDialTimeoutMs = 1200 ∧ tcpStageBudgetMs = 2200 ∧
    tcpDialTimeoutMs < tcpStageBudgetMs ∧
    ((tryAcquire (env.tcpSel ip port) gs.tcp).1 = true →
      ((env.dial (dialNetOf f) ip port = none →
        tcpAttempt env f ip port gs =
          (true, gs, [Ev.acq GateId.tcp true, Ev.tcpProbe ip port true,
            Ev.tcpClose ip port, Ev.rel GateId.tcp])) ∧
       (∀ er : DialErr, env.dial (dialNetOf f) ip port = some er →
        tcpAttempt env f ip port gs =
          (false, gs, [Ev.acq GateId.tcp true, Ev.tcpProbe ip port false,
            Ev.rel GateId.tcp])))) := by
  obtain ⟨gd, gi, ⟨tc, tu⟩⟩ := gs
  refine ⟨rfl, rfl, by decide, ?_⟩
  intro ha
  by_cases h : env.tcpSel ip port = true ∧ tu < tc
  · constructor
    · intro hd
      simp [tcpAttempt, tryAcquire, h, hd, releaseG]
    · intro er hd
      simp [tcpAttempt, tryAcquire, h, hd, releaseG]
  · exfalso
    simp [tryAcquire, h] at ha

/-! Witnesses for the claim theorems that carry hypotheses. -/

theorem C1_witness :
    fieldOf (detectAndPing envAllFail (Input.domain "x") gs0).1 Fam.v4 = "no" := by
  have h := C1_ok_iff_probe_success envAllFail (Input.domain "x") gs0
    (fun f q hq => absurd hq (List.not_mem_nil q))
  exact h.2.2 Fam.v4 rfl rfl

theorem C5_witness :
    (familyRace envAllFail Fam.v4 [ipW] gs0).2.2.any isIcmpSuccEv = false ∧
    (familyRace envAllFail Fam.v4 [ipW] gs0).2.2.any isTcpSuccEv = false := by
  have h := C5_strict_escalation envAllFail Fam.v4 [ipW] gs0
  exact h.2.2.1 (by decide)

theorem C6_witness : getEnvInt "0" 7 = 7 := by
  have h := C6_getEnvInt_config "0" 7 (fun _ => "")
  exact h.2.2.1 0 (by decide) (by decide)

theorem C8_witness :
    tcpAttempt envTcpOnly Fam.v4 ipW "443" gs0 =
      (true, gs0, [Ev.acq GateId.tcp true, Ev.tcpProbe ipW "443" true,
        Ev.tcpClose ipW "443", Ev.rel GateId.tcp]) := by
  have h := C8_tcp_attempt envTcpOnly Fam.v4 ipW "443" gs0
  exact (h.2.2.2 (by decide)).1 (by decide)
